import Mathlib

/-!
Verification of the incremental dashboard synchronizer of the finanzas-arg
repository.

The repository is a collection of fetch-cache-merge-report pipelines
(src/bonos/generate_dashboard.py, src/bcra/generate_dashboard_v2.py,
src/acciones/generate_dashboard.py, src/run_all.py).  This file gives a
shallow embedding of the parts that carry invariants:

* a bonos `Series` is a list of OHLCV rows (`Obs`); a BCRA series is a list
  of `(fecha, valor)` rows (`ObsB`).  Calendar days are modelled as `ℤ`
  (day numbers) and numeric values as exact rationals `ℚ` — the Python code
  works on binary floats, but none of the properties checked here depend on
  float rounding artefacts.
* pandas `sort_values('date')` is modelled as a sort by the date key
  (`sort_values` / `sortB` below, via `List.insertionSort`), and pandas
  `drop_duplicates(subset=['date'])` — whose default is `keep='first'` —
  as `dropDupBy`, which keeps the first occurrence of every date.
* the HTTP layer is a black box: a successful request hands the fetcher an
  arbitrary payload (a list of rows); the retry loops are modelled over an
  explicit list of per-attempt outcomes (`FetchOutcome`).
-/

/-- One row of a bonos/acciones price series, as produced by
`fetch_desde_api` / `fetch_ticker` after renaming the short-coded JSON keys
(`o`/`h`/`l`/`c`/`v`/`dr`) in src/bonos/generate_dashboard.py. -/
structure Obs where
  date : ℤ
  open_ : ℚ
  high : ℚ
  low : ℚ
  close : ℚ
  volume : ℚ
  daily_return : ℚ
deriving DecidableEq

/-- One row of a BCRA macro-variable series (columns `fecha`, `valor`) as
used by src/bcra/generate_dashboard_v2.py. -/
structure ObsB where
  fecha : ℤ
  valor : ℚ
deriving DecidableEq

/-- Sort a list of rows ascending by an integer key: the model of pandas
`sort_values` on the date column. -/
def sortByKey {α : Type} (key : α → ℤ) (l : List α) : List α :=
  List.insertionSort (fun a b => key a ≤ key b) l

instance {α : Type} (key : α → ℤ) : DecidableRel (fun a b : α => key a ≤ key b) :=
  fun a b => Int.decLe (key a) (key b)

instance {α : Type} (key : α → ℤ) : IsTotal α (fun a b : α => key a ≤ key b) :=
  ⟨fun a b => Int.le_total (key a) (key b)⟩

instance {α : Type} (key : α → ℤ) : IsTrans α (fun a b : α => key a ≤ key b) :=
  ⟨fun _ _ _ h1 h2 => le_trans h1 h2⟩

/-- Model of pandas `drop_duplicates(subset=[key])` with the default
`keep='first'`: a row is dropped exactly when its key already occurred
earlier in the list (the accumulator `seen` holds the keys seen so far). -/
def dropDupBy {α : Type} (key : α → ℤ) : List ℤ → List α → List α
  | _, [] => []
  | seen, x :: rest =>
    if key x ∈ seen then dropDupBy key seen rest
    else x :: dropDupBy key (key x :: seen) rest

/-- pandas `df.sort_values('date')` for bonos rows. -/
def sort_values (l : List Obs) : List Obs := sortByKey Obs.date l

/-- pandas `df.drop_duplicates(subset=['date'])` for bonos rows. -/
def drop_duplicates (l : List Obs) : List Obs := dropDupBy Obs.date [] l

/-- pandas `df.sort_values('fecha')` for BCRA rows. -/
def sortB (l : List ObsB) : List ObsB := sortByKey ObsB.fecha l

/-- pandas `df.drop_duplicates(subset=['fecha'])` for BCRA rows. -/
def drop_duplicatesB (l : List ObsB) : List ObsB := dropDupBy ObsB.fecha [] l

/-- Body of `fetch_desde_api` (src/bonos/generate_dashboard.py, lines 76-86)
once a request has succeeded with payload `data`: an empty payload yields an
empty frame, otherwise the rows are sorted by date and, when `desde` is
given, rows dated on or before `desde` are filtered out
(`df[df['date'] > pd.Timestamp(desde)]`). -/
def fetch_process (data : List Obs) (desde : Option ℤ) : List Obs :=
  if data.isEmpty then []
  else
    let df := sort_values data
    match desde with
    | none => df
    | some d => df.filter fun o => decide (d < o.date)

/-- The maximum of the date column, `df_local['date'].max()`. -/
def maxDate : List Obs → ℤ
  | [] => 0
  | o :: rest => rest.foldl (fun m x => max m x.date) o.date

/-- `actualizar_ticker` (src/bonos/generate_dashboard.py, lines 97-124) with
the I/O replaced by explicit state: `df_local` is the Series loaded from the
per-ticker CSV, `hoy` is today's calendar day and `remote` is the payload a
successful API request returns (the retry loop is modelled separately; a
fetch that fails all attempts is the same as `remote = []`, both ending in
an empty frame).  The result is the Series returned for the run together
with a flag telling whether `guardar_csv` was called. -/
def actualizar_ticker (df_local : List Obs) (hoy : ℤ) (remote : List Obs) :
    List Obs × Bool :=
  if df_local.isEmpty then
    let df_new := fetch_process remote none
    if df_new.isEmpty then (df_local, false) else (df_new, true)
  else
    let ultimo := maxDate df_local
    if hoy ≤ ultimo then (df_local, false)
    else
      let df_new := fetch_process remote (some ultimo)
      if df_new.isEmpty then (df_local, false)
      else (sort_values (drop_duplicates (df_local ++ df_new)), true)

/-- The maximum of the fecha column, `df_local["fecha"].max()`. -/
def maxFecha : List ObsB → ℤ
  | [] => 0
  | o :: rest => rest.foldl (fun m x => max m x.fecha) o.fecha

/-- `BCRAClient.get_datos_historicos` / `_parsear_respuesta`
(src/bcra/bcra_api_client.py): the client parses the payload the server
chose to return and sorts it by date.  It never filters by the requested
window itself, and the server is not guaranteed to honor it, so the raw
payload `remote` is arbitrary. -/
def get_datos_historicos (remote : List ObsB) : List ObsB := sortB remote

/-- `actualizar_con_api` (src/bcra/generate_dashboard_v2.py, lines 60-88)
with the I/O replaced by explicit state, as with `actualizar_ticker`.
The `desde > hasta` comparison of the Python code is on `YYYY-MM-DD`
strings, whose lexicographic order is exactly the chronological order
modelled here on day numbers. -/
def actualizar_con_api (df_local : List ObsB) (hoy : ℤ) (remote : List ObsB) :
    List ObsB × Bool :=
  if df_local.isEmpty then
    let df_nuevo := get_datos_historicos remote
    if df_nuevo.isEmpty then (df_local, false)
    else (sortB (drop_duplicatesB (df_local ++ df_nuevo)), true)
  else
    let ultimo := maxFecha df_local
    if hoy < ultimo + 1 then (df_local, false)
    else
      let df_nuevo := get_datos_historicos remote
      if df_nuevo.isEmpty then (df_local, false)
      else (sortB (drop_duplicatesB (df_local ++ df_nuevo)), true)

/-- Outcome of one HTTP request attempt inside a fetch retry loop: either a
successful response carrying the JSON rows, or a failure (transport error,
non-2xx status raised by `raise_for_status`, or malformed payload) — all of
which the Python code catches with `except Exception`. -/
inductive FetchOutcome where
  | ok (rows : List Obs)
  | err
deriving DecidableEq

/-- The retry loop of `fetch_desde_api` (src/bonos/generate_dashboard.py,
lines 72-92): it walks the per-attempt outcomes in order; a successful
attempt processes its payload and returns, a failed attempt sleeps for the
fixed 1-second backoff when another attempt remains and retries.  When the
list is exhausted the function returns an empty frame.  The result carries
the returned rows, the number of attempts made and the number of backoff
sleeps.  Every exception is caught inside the loop, which is why the model
is a total function. -/
def fetch_desde_api_loop (desde : Option ℤ) : List FetchOutcome → List Obs × Nat × Nat
  | [] => ([], 0, 0)
  | FetchOutcome.ok rows :: _ => (fetch_process rows desde, 1, 0)
  | FetchOutcome.err :: rest =>
    let r := fetch_desde_api_loop desde rest
    (r.1, r.2.1 + 1, r.2.2 + (if rest.isEmpty then 0 else 1))

/-- `fetch_desde_api` with its default `max_retries=3`: the loop runs over
exactly three attempt outcomes. -/
def fetch_desde_api (a0 a1 a2 : FetchOutcome) (desde : Option ℤ) :
    List Obs × Nat × Nat :=
  fetch_desde_api_loop desde [a0, a1, a2]

/-- The retry loop of `fetch_ticker` (src/acciones/generate_dashboard.py,
lines 22-43), which differs from the bonos fetcher in signalling absence
with Python `None` instead of an empty frame: a successful attempt with an
empty payload returns `None` at once, a successful attempt otherwise
returns the sorted rows, and an exhausted loop returns `None`.  The second
component again counts the attempts made. -/
def fetch_ticker_loop : List FetchOutcome → Option (List Obs) × Nat
  | [] => (none, 0)
  | FetchOutcome.ok rows :: _ =>
    ((if rows.isEmpty then none else some (sort_values rows)), 1)
  | FetchOutcome.err :: rest =>
    let r := fetch_ticker_loop rest
    (r.1, r.2 + 1)

/-- `fetch_ticker` with its default `max_retries=3`. -/
def fetch_ticker (a0 a1 a2 : FetchOutcome) : Option (List Obs) × Nat :=
  fetch_ticker_loop [a0, a1, a2]

/-- Python `round(q, 2)`, modelled as rounding to the nearest multiple of
1/100 (Python rounds ties to even on binary floats; no property proved here
evaluates `round` at a tie). -/
def round2 (q : ℚ) : ℚ := (round (q * 100) : ℚ) / 100

/-- Python `round(q, 4)`, as used for the exported BCRA `valores`. -/
def round4 (q : ℚ) : ℚ := (round (q * 10000) : ℚ) / 10000

/-- `np.mean` of a list of values (sum divided by length). -/
def listMean (l : List ℚ) : ℚ := l.sum / l.length

/-- The pair `(values[-2], values[-1])` of a list — `(previous, last)`;
only meaningful for lists with at least two elements, which is what the
callers guarantee. -/
def lastTwo (l : List ℚ) : ℚ × ℚ :=
  match l.reverse with
  | a :: b :: _ => (b, a)
  | _ => (0, 0)

/-- The last element `values[-1]` of a list, defaulting to 0 on the empty
list (which the callers rule out). -/
def lastD (l : List ℚ) : ℚ :=
  match l.reverse with
  | [] => 0
  | a :: _ => a

/-- The value of the float daily-return computation.  The closes are numpy
float64: a division by a zero previous close yields `inf`/`-inf` (or `NaN`
for `0.0/0.0`) instead of raising — the script suppresses the numpy
warnings — and those special values propagate unchanged through `- 1`,
`* 100` and `round(…, 2)`.  Finite results are exact rationals. -/
inductive FloatVal where
  | finite (q : ℚ)
  | inf
  | neginf
  | nan
deriving DecidableEq

/-- Float64 division `a / b`: finite quotient for a non-zero denominator,
`NaN` for `0.0/0.0`, and a signed infinity for `a/0.0` with `a ≠ 0`. -/
def fdiv (a b : ℚ) : FloatVal :=
  if b = 0 then
    if a = 0 then FloatVal.nan
    else if 0 < a then FloatVal.inf else FloatVal.neginf
  else FloatVal.finite (a / b)

/-- `((close_last / close_prev) - 1) * 100` in float semantics: the affine
map is applied to a finite quotient and leaves `inf`/`-inf`/`NaN`
unchanged. -/
def daily_ret_val (close_prev close_last : ℚ) : FloatVal :=
  match fdiv close_last close_prev with
  | FloatVal.finite q => FloatVal.finite ((q - 1) * 100)
  | v => v

/-- Python `round(x, 2)` on a float value: rounds a finite value, returns
`inf`/`-inf`/`NaN` unchanged. -/
def fround2 : FloatVal → FloatVal
  | FloatVal.finite q => FloatVal.finite (round2 q)
  | v => v

/-- One metrics row of `calcular_metricas` (src/bonos/generate_dashboard.py,
lines 143-150) / `metrics_rows` (src/acciones/generate_dashboard.py,
lines 73-80).  `daily_ret` is a float value (possibly `inf`/`NaN`, see
`FloatVal`); `vol_rel20` is `None` when the baseline average is not
positive (the Python code stores `np.nan` there, and the row's other fields
are unaffected). -/
structure MetricRow where
  ticker : String
  close_last : ℚ
  daily_ret : FloatVal
  volume_last : ℚ
  vol_rel20 : Option ℚ
deriving DecidableEq

/-- The body of the metrics loop for one instrument: sort the frame by date,
take the last and previous closes, the daily return
`((close_last / close_prev) - 1) * 100` (in float semantics, rounded to 2
decimals), the last volume and the relative volume against the trailing-20
baseline `vol[-21:-1]` (all available prior periods when fewer than 22 rows
exist). -/
def metricRow (ticker : String) (df : List Obs) : MetricRow :=
  let g := sort_values df
  let close := g.map Obs.close
  let vol := g.map Obs.volume
  let pl := lastTwo close
  let vol_last := lastD vol
  let vol_avg20 :=
    if 21 < vol.length then listMean ((vol.drop (vol.length - 21)).take 20)
    else listMean (vol.take (vol.length - 1))
  { ticker := ticker
    close_last := round2 pl.2
    daily_ret := fround2 (daily_ret_val pl.1 pl.2)
    volume_last := vol_last
    vol_rel20 := if 0 < vol_avg20 then some (round2 (vol_last / vol_avg20)) else none }

/-- `pd.DataFrame(metrics_rows).dropna(subset=['daily_ret'])`: removes the
rows whose daily return is `NaN` (an infinite daily return is NOT dropped —
`dropna` only removes NaN/None). -/
def dropna_daily_ret (rows : List MetricRow) : List MetricRow :=
  rows.filter fun r => decide (r.daily_ret ≠ FloatVal.nan)

/-- `calcular_metricas` (src/bonos/generate_dashboard.py, lines 129-151):
instruments whose frame is empty or has fewer than 2 rows are skipped
(`continue`), every other instrument contributes one row, and the final
`dropna(subset=['daily_ret'])` removes the rows whose daily return came out
`NaN` (both latest closes zero). -/
def calcular_metricas (all_frames : List (String × List Obs)) : List MetricRow :=
  dropna_daily_ret (all_frames.filterMap fun p =>
    if p.2.length < 2 then none else some (metricRow p.1 p.2))

/-- The value of the advance/decline ratio: Python stores
`advances / declines` when `declines > 0` and `float('inf')` otherwise, so
the model distinguishes a finite rational from the infinity, on which `>=`
is always true and `<=` always false against finite thresholds. -/
inductive AdVal where
  | finite (q : ℚ)
  | infinite
deriving DecidableEq

/-- Python `ratio >= q` for a possibly infinite ratio. -/
def AdVal.ge (v : AdVal) (q : ℚ) : Bool :=
  match v with
  | AdVal.infinite => true
  | AdVal.finite x => decide (q ≤ x)

/-- Python `ratio <= q` for a possibly infinite ratio. -/
def AdVal.le (v : AdVal) (q : ℚ) : Bool :=
  match v with
  | AdVal.infinite => false
  | AdVal.finite x => decide (x ≤ q)

/-- `advances`: number of instruments with positive daily return. -/
def advances (rets : List ℚ) : Nat := (rets.filter fun r => decide (0 < r)).length

/-- `declines`: number of instruments with negative daily return. -/
def declines (rets : List ℚ) : Nat := (rets.filter fun r => decide (r < 0)).length

/-- `ad_ratio = advances / declines if declines > 0 else float('inf')`
(src/bonos/generate_dashboard.py line 161, src/acciones line 88): the
division is evaluated only under `declines > 0`, so no division-by-zero is
raised. -/
def ad_ratio (rets : List ℚ) : AdVal :=
  if 0 < declines rets then AdVal.finite ((advances rets : ℚ) / (declines rets : ℚ))
  else AdVal.infinite

/-- `avg_change = metrics['daily_ret'].mean()`. -/
def avg_change (rets : List ℚ) : ℚ := listMean rets

/-- The five-bucket sentiment classification shared by
src/bonos/generate_dashboard.py (lines 166-175) and
src/acciones/generate_dashboard.py (lines 96-110), evaluated top to
bottom. -/
def market_sentiment (rets : List ℚ) : String :=
  let r := ad_ratio rets
  let avg := avg_change rets
  if AdVal.ge r 2 && decide ((1 : ℚ)/2 ≤ avg) then "Alcista amplio"
  else if AdVal.ge r (6/5) && decide ((0 : ℚ) ≤ avg) then "Alcista moderado"
  else if AdVal.le r (1/2) && decide (avg ≤ -((1 : ℚ)/2)) then "Bajista amplio"
  else if AdVal.le r (4/5) && decide (avg ≤ (0 : ℚ)) then "Bajista moderado"
  else "Mixto / Sin tendencia"

/-- The `__main__` block of src/run_all.py:
`ok = all(run(f, s, l) for f, s, l in SCRIPTS)`.  `run` launches one module
as a subprocess and returns whether it exited with code 0; `results` lists,
in the configured order, the exit status each module would produce if
executed.  Because `all` consumes a generator, it stops at the first
`False`: the model returns the overall flag together with the number of
modules actually executed. -/
def run_all (results : List Bool) : Bool × Nat :=
  match results with
  | [] => (true, 0)
  | r :: rest =>
    if r then
      let t := run_all rest
      (t.1, t.2 + 1)
    else (false, 1)

/-- The date of the last row of the sorted BCRA frame,
`df["fecha"].iloc[-1]` after `sort_values("fecha")`; 0 for an empty frame
(the callers only use it on non-empty frames). -/
def ultima_fecha (df : List ObsB) : ℤ :=
  match (sortB df).reverse with
  | [] => 0
  | o :: _ => o.fecha

/-- `df_30["valor"].iloc[-1] if not df_30.empty else None`
(src/bcra/generate_dashboard_v2.py, lines 104-106 and 110-112): the value
of the last row dated at most `dias` days before the last date, `none` when
no such row exists. -/
def val_atras (dias : ℤ) (df : List ObsB) : Option ℚ :=
  match ((sortB df).filter fun o => decide (o.fecha ≤ ultima_fecha df - dias)).reverse with
  | [] => none
  | o :: _ => some o.valor

/-- The guarded variation
`round((ultimo - val) / abs(val) * 100, 2) if val and val != 0 else None`:
Python's truthiness test makes both `None` and `0` fall to `None`, so the
division is evaluated only for a non-zero baseline. -/
def variacion (dias : ℤ) (ultimo : ℚ) (df : List ObsB) : Option ℚ :=
  match val_atras dias df with
  | none => none
  | some v => if v = 0 then none else some (round2 ((ultimo - v) / |v| * 100))

/-- The exported record of one BCRA variable as built by `df_a_dict`
(metadata fields omitted: they are copied verbatim from the static
`VARIABLES` table). -/
structure VarDict where
  valores : List ℚ
  ultimo : ℚ
  var_30d : Option ℚ
  var_1a : Option ℚ
deriving DecidableEq

/-- `df_a_dict` (src/bcra/generate_dashboard_v2.py, lines 91-127): `None`
for an empty frame, otherwise the sorted values rounded to 4 decimals, the
last of them, and the guarded 30-day and 1-year variations.  The
`dropna(subset=["valor"])` of the Python code removes float NaN values,
which do not arise over exact rationals. -/
def df_a_dict (df : List ObsB) : Option VarDict :=
  if df.isEmpty then none
  else
    let g := sortB df
    let valores := g.map fun o => round4 o.valor
    let ultimo := lastD valores
    some
      { valores := valores
        ultimo := ultimo
        var_30d := variacion 30 ultimo df
        var_1a := variacion 365 ultimo df }

theorem dropDupBy_sublist {α : Type} (key : α → ℤ) :
    ∀ (seen : List ℤ) (l : List α), (dropDupBy key seen l).Sublist l := by
  intro seen l
  induction l generalizing seen with
  | nil => simp [dropDupBy]
  | cons x rest ih =>
    by_cases h : key x ∈ seen
    · simp only [dropDupBy, if_pos h]
      exact (ih seen).trans (List.sublist_cons_self x rest)
    · simp only [dropDupBy, if_neg h]
      exact List.Sublist.cons₂ x (ih _)

theorem mem_map_key_dropDupBy {α : Type} (key : α → ℤ) :
    ∀ (seen : List ℤ) (l : List α) (k : ℤ),
      k ∈ (dropDupBy key seen l).map key ↔ k ∈ l.map key ∧ k ∉ seen := by
  intro seen l
  induction l generalizing seen with
  | nil => simp [dropDupBy]
  | cons x rest ih =>
    intro k
    by_cases h : key x ∈ seen
    · simp only [dropDupBy, if_pos h, List.map_cons, List.mem_cons, ih]
      constructor
      · rintro ⟨h1, h2⟩
        exact ⟨Or.inr h1, h2⟩
      · rintro ⟨h1 | h1, h2⟩
        · exact absurd (h1 ▸ h) h2
        · exact ⟨h1, h2⟩
    · simp only [dropDupBy, if_neg h, List.map_cons, List.mem_cons, ih,
        List.mem_cons, not_or]
      constructor
      · rintro (h1 | ⟨h1, h2, h3⟩)
        · exact ⟨Or.inl h1, h1 ▸ h⟩
        · exact ⟨Or.inr h1, h3⟩
      · rintro ⟨h1 | h1, h2⟩
        · exact Or.inl h1
        · by_cases hk : k = key x
          · exact Or.inl hk
          · exact Or.inr ⟨h1, hk, h2⟩

theorem nodup_map_key_dropDupBy {α : Type} (key : α → ℤ) :
    ∀ (seen : List ℤ) (l : List α), ((dropDupBy key seen l).map key).Nodup := by
  intro seen l
  induction l generalizing seen with
  | nil => simp [dropDupBy]
  | cons x rest ih =>
    by_cases h : key x ∈ seen
    · simpa only [dropDupBy, if_pos h] using ih seen
    · simp only [dropDupBy, if_neg h, List.map_cons, List.nodup_cons]
      refine ⟨fun hmem => ?_, ih _⟩
      have := (mem_map_key_dropDupBy key _ _ _).mp hmem
      exact this.2 (List.mem_cons_self _ _)

theorem dropDupBy_append_mem_left {α : Type} (key : α → ℤ) :
    ∀ (seen : List ℤ) (l₁ l₂ : List α) (x : α),
      x ∈ dropDupBy key seen (l₁ ++ l₂) → key x ∈ l₁.map key → x ∈ l₁ := by
  intro seen l₁
  induction l₁ generalizing seen with
  | nil => simp
  | cons a t ih =>
    intro l₂ x hx hk
    have hknotseen : key x ∉ seen := by
      have : key x ∈ (dropDupBy key seen ((a :: t) ++ l₂)).map key :=
        List.mem_map_of_mem key hx
      exact ((mem_map_key_dropDupBy key _ _ _).mp this).2
    rw [List.cons_append] at hx
    by_cases h : key a ∈ seen
    · rw [dropDupBy, if_pos h] at hx
      rcases (List.mem_cons.mp (by simpa using hk) : key x = key a ∨ key x ∈ t.map key) with
        he | ht
      · exact absurd (he ▸ h) hknotseen
      · exact List.mem_cons_of_mem a (ih seen l₂ x hx ht)
    · rw [dropDupBy, if_neg h] at hx
      rcases List.mem_cons.mp hx with he | hx2
      · exact he ▸ List.mem_cons_self a t
      · have hknotseen2 : key x ∉ key a :: seen := by
          have : key x ∈ (dropDupBy key (key a :: seen) (t ++ l₂)).map key :=
            List.mem_map_of_mem key hx2
          exact ((mem_map_key_dropDupBy key _ _ _).mp this).2
        rcases (List.mem_cons.mp (by simpa using hk) : key x = key a ∨ key x ∈ t.map key) with
          he | ht
        · exact absurd (List.mem_cons.mpr (Or.inl he)) hknotseen2
        · exact List.mem_cons_of_mem a (ih (key a :: seen) l₂ x hx2 ht)

theorem mem_dropDupBy_of_mem_left {α : Type} (key : α → ℤ) :
    ∀ (seen : List ℤ) (l₁ l₂ : List α) (x : α),
      (l₁.map key).Nodup → (∀ k ∈ l₁.map key, k ∉ seen) → x ∈ l₁ →
      x ∈ dropDupBy key seen (l₁ ++ l₂) := by
  intro seen l₁
  induction l₁ generalizing seen with
  | nil => simp
  | cons a t ih =>
    intro l₂ x hnd hfresh hx
    have ha : key a ∉ seen := hfresh _ (by simp)
    rw [List.cons_append, dropDupBy, if_neg ha]
    rcases List.mem_cons.mp hx with he | hx2
    · exact he ▸ List.mem_cons_self _ _
    · refine List.mem_cons_of_mem a (ih (key a :: seen) l₂ x ?_ ?_ hx2)
      · exact (List.nodup_cons.mp (by simpa using hnd)).2
      · intro k hk
        simp only [List.mem_cons, not_or]
        refine ⟨?_, hfresh k (List.mem_cons_of_mem _ hk)⟩
        intro he2
        exact (List.nodup_cons.mp (by simpa using hnd)).1 (he2 ▸ hk)

theorem sortByKey_perm {α : Type} (key : α → ℤ) (l : List α) :
    (sortByKey key l).Perm l :=
  List.perm_insertionSort _ l

theorem mem_sortByKey {α : Type} (key : α → ℤ) {l : List α} {x : α} :
    x ∈ sortByKey key l ↔ x ∈ l :=
  List.mem_insertionSort _

theorem sortByKey_map_key_sorted {α : Type} (key : α → ℤ) (l : List α) :
    ((sortByKey key l).map key).Pairwise (fun a b : ℤ => a ≤ b) :=
  List.pairwise_map.mpr (List.sorted_insertionSort _ l)

theorem sortByKey_dropDupBy_nodup {α : Type} (key : α → ℤ) (l : List α) :
    ((sortByKey key (dropDupBy key [] l)).map key).Nodup :=
  (((sortByKey_perm key (dropDupBy key [] l)).map key).nodup_iff).mpr
    (nodup_map_key_dropDupBy key [] l)

theorem fetch_process_map_date_sorted (data : List Obs) (desde : Option ℤ) :
    ((fetch_process data desde).map Obs.date).Pairwise (fun a b : ℤ => a ≤ b) := by
  unfold fetch_process
  split_ifs
  · simp
  · cases desde with
    | none => exact sortByKey_map_key_sorted Obs.date data
    | some d =>
      exact List.pairwise_map.mpr ((List.sorted_insertionSort _ data).filter _)

theorem actualizar_ticker_cases (df_local : List Obs) (hoy : ℤ) (remote : List Obs) :
    actualizar_ticker df_local hoy remote = (df_local, false) ∨
    (df_local.isEmpty = true ∧
      actualizar_ticker df_local hoy remote = (fetch_process remote none, true)) ∨
    (df_local.isEmpty = false ∧
      actualizar_ticker df_local hoy remote =
        (sort_values (drop_duplicates
          (df_local ++ fetch_process remote (some (maxDate df_local)))), true)) := by
  simp only [actualizar_ticker]
  split_ifs <;> simp [*]

theorem actualizar_con_api_cases (df_local : List ObsB) (hoy : ℤ) (remote : List ObsB) :
    actualizar_con_api df_local hoy remote = (df_local, false) ∨
    actualizar_con_api df_local hoy remote =
      (sortB (drop_duplicatesB (df_local ++ get_datos_historicos remote)), true) := by
  simp only [actualizar_con_api]
  split_ifs <;> simp

/-- C1 counterexample: a stored BCRA row for day 0 with value 100 and a
fetch response that again carries day 0, now with value 200 (the API
ignored the requested window).  The merged-and-persisted series keeps the
stored row `⟨0, 100⟩` and the fetched row `⟨0, 200⟩` is nowhere in it:
`drop_duplicates` defaults to `keep='first'` and the old frame precedes the
new one in the concatenation, so the stored values win, contradicting the
claim that the fetched values supersede them. -/
theorem c1_counterexample :
    (actualizar_con_api [⟨0, 100⟩] 5 [⟨0, 200⟩, ⟨1, 300⟩]).1 = [⟨0, 100⟩, ⟨1, 300⟩] ∧
    ObsB.mk 0 200 ∉ (actualizar_con_api [⟨0, 100⟩] 5 [⟨0, 200⟩, ⟨1, 300⟩]).1 ∧
    (actualizar_con_api [⟨0, 100⟩] 5 [⟨0, 200⟩, ⟨1, 300⟩]).2 = true := by
  decide

/-- C1 amended: dedup after concatenating old then new keeps the FIRST
occurrence (pandas default), so when the local series and the fetched rows
both contain an observation for the same date, the merged-and-persisted
series keeps the stored row's values: every merged row whose date is a
stored date is the stored row itself, and (for a local series without
duplicate dates) every stored row survives the merge unchanged. -/
theorem c1_dedup_keeps_stored_row (df_local : List ObsB) (hoy : ℤ) (remote : List ObsB) :
    (∀ x ∈ (actualizar_con_api df_local hoy remote).1,
      x.fecha ∈ df_local.map ObsB.fecha → x ∈ df_local) ∧
    ((df_local.map ObsB.fecha).Nodup →
      ∀ o ∈ df_local, o ∈ (actualizar_con_api df_local hoy remote).1) := by
  rcases actualizar_con_api_cases df_local hoy remote with h | h <;> rw [h]
  · exact ⟨fun x hx _ => hx, fun _ o ho => ho⟩
  · constructor
    · intro x hx hdate
      have hx2 : x ∈ drop_duplicatesB (df_local ++ get_datos_historicos remote) :=
        (mem_sortByKey ObsB.fecha).mp hx
      exact dropDupBy_append_mem_left ObsB.fecha [] _ _ x hx2 hdate
    · intro hnd o ho
      refine (mem_sortByKey ObsB.fecha).mpr ?_
      exact mem_dropDupBy_of_mem_left ObsB.fecha [] _ _ o hnd (by simp) ho

theorem c1_dedup_keeps_stored_row_witness :
    ObsB.mk 0 100 ∈ (actualizar_con_api [⟨0, 100⟩] 5 [⟨0, 200⟩, ⟨1, 300⟩]).1 :=
  (c1_dedup_keeps_stored_row [⟨0, 100⟩] 5 [⟨0, 200⟩, ⟨1, 300⟩]).2 (by decide)
    (ObsB.mk 0 100) (by decide)

/-- C2 counterexample: with an empty local store, `actualizar_ticker`
persists the full-history fetch response as-is (`guardar_csv(ticker,
df_new)`), without any deduplication, so a response carrying day 0 twice is
persisted with two observations of equal date. -/
theorem c2_counterexample :
    (actualizar_ticker [] 5 [⟨0, 0, 0, 0, 100, 0, 0⟩, ⟨0, 0, 0, 0, 200, 0, 0⟩]).2 = true ∧
    (actualizar_ticker [] 5
        [⟨0, 0, 0, 0, 100, 0, 0⟩, ⟨0, 0, 0, 0, 200, 0, 0⟩]).1.map Obs.date = [0, 0] ∧
    ¬ ((actualizar_ticker [] 5
        [⟨0, 0, 0, 0, 100, 0, 0⟩, ⟨0, 0, 0, 0, 200, 0, 0⟩]).1.map Obs.date).Nodup := by
  decide

/-- C2 amended: after every incremental merge of the bonos synchronizer
(non-empty local series, write performed) and after every write of the BCRA
synchronizer — whose first-fetch path also goes through concat-dedup-sort —
the persisted series has no two observations with equal dates and is sorted
non-decreasing by date; duplicate dates inside a single fetch response
collapse there as well, since the dedup runs over the whole concatenation.
On the bonos first full-history fetch from an empty store the persisted
series is sorted non-decreasing, but within-response duplicate dates are
persisted without collapsing (the counterexample above). -/
theorem c2_series_invariant (df_local : List Obs) (df_localB : List ObsB) (hoy hoyB : ℤ)
    (remote : List Obs) (remoteB : List ObsB) :
    (df_local.isEmpty = false → (actualizar_ticker df_local hoy remote).2 = true →
      ((actualizar_ticker df_local hoy remote).1.map Obs.date).Nodup ∧
      ((actualizar_ticker df_local hoy remote).1.map Obs.date).Pairwise
        (fun a b : ℤ => a ≤ b)) ∧
    ((actualizar_con_api df_localB hoyB remoteB).2 = true →
      ((actualizar_con_api df_localB hoyB remoteB).1.map ObsB.fecha).Nodup ∧
      ((actualizar_con_api df_localB hoyB remoteB).1.map ObsB.fecha).Pairwise
        (fun a b : ℤ => a ≤ b)) ∧
    ((actualizar_ticker [] hoy remote).1.map Obs.date).Pairwise (fun a b : ℤ => a ≤ b) := by
  refine ⟨?_, ?_, ?_⟩
  · intro hne hw
    rcases actualizar_ticker_cases df_local hoy remote with h | ⟨he, _⟩ | ⟨_, h⟩
    · rw [h] at hw; simp at hw
    · rw [he] at hne; simp at hne
    · rw [h]
      exact ⟨sortByKey_dropDupBy_nodup Obs.date _, sortByKey_map_key_sorted Obs.date _⟩
  · intro hw
    rcases actualizar_con_api_cases df_localB hoyB remoteB with h | h
    · rw [h] at hw; simp at hw
    · rw [h]
      exact ⟨sortByKey_dropDupBy_nodup ObsB.fecha _, sortByKey_map_key_sorted ObsB.fecha _⟩
  · simp only [actualizar_ticker, List.isEmpty_nil, if_true]
    split_ifs with h
    · simp
    · exact fetch_process_map_date_sorted remote none

theorem c2_series_invariant_witness :
    ((actualizar_ticker [⟨1, 0, 0, 0, 10, 0, 0⟩] 5 [⟨2, 0, 0, 0, 11, 0, 0⟩]).1.map
      Obs.date).Nodup ∧
    ((actualizar_con_api [⟨1, 10⟩] 5 [⟨2, 11⟩]).1.map ObsB.fecha).Nodup :=
  ⟨((c2_series_invariant [⟨1, 0, 0, 0, 10, 0, 0⟩] [⟨1, 10⟩] 5 5 [⟨2, 0, 0, 0, 11, 0, 0⟩]
      [⟨2, 11⟩]).1 (by decide) (by decide)).1,
   ((c2_series_invariant [⟨1, 0, 0, 0, 10, 0, 0⟩] [⟨1, 10⟩] 5 5 [⟨2, 0, 0, 0, 11, 0, 0⟩]
      [⟨2, 11⟩]).2.1 (by decide)).1⟩

set_option maxHeartbeats 2000000 in
/-- C4: a local series with the five consecutive dates 1..5 and a fetch
response with dates 4..8; the synchronizer requests `since = 5` (the local
maximum), `fetch_desde_api` filters the response down to the dates 6..8,
and the merged series has exactly the dates 1..8, ascending, length 8 —
whatever the row values are. -/
theorem c4_merge_correctness (v1 v2 v3 v4 v5 w4 w5 w6 w7 w8 : ℚ) :
    (fetch_process
        [⟨4, 0, 0, 0, w4, 0, 0⟩, ⟨5, 0, 0, 0, w5, 0, 0⟩, ⟨6, 0, 0, 0, w6, 0, 0⟩,
         ⟨7, 0, 0, 0, w7, 0, 0⟩, ⟨8, 0, 0, 0, w8, 0, 0⟩] (some 5)).map Obs.date =
      [6, 7, 8] ∧
    (actualizar_ticker
        [⟨1, 0, 0, 0, v1, 0, 0⟩, ⟨2, 0, 0, 0, v2, 0, 0⟩, ⟨3, 0, 0, 0, v3, 0, 0⟩,
         ⟨4, 0, 0, 0, v4, 0, 0⟩, ⟨5, 0, 0, 0, v5, 0, 0⟩] 9
        [⟨4, 0, 0, 0, w4, 0, 0⟩, ⟨5, 0, 0, 0, w5, 0, 0⟩, ⟨6, 0, 0, 0, w6, 0, 0⟩,
         ⟨7, 0, 0, 0, w7, 0, 0⟩, ⟨8, 0, 0, 0, w8, 0, 0⟩]).1.map Obs.date =
      [1, 2, 3, 4, 5, 6, 7, 8] ∧
    (actualizar_ticker
        [⟨1, 0, 0, 0, v1, 0, 0⟩, ⟨2, 0, 0, 0, v2, 0, 0⟩, ⟨3, 0, 0, 0, v3, 0, 0⟩,
         ⟨4, 0, 0, 0, v4, 0, 0⟩, ⟨5, 0, 0, 0, v5, 0, 0⟩] 9
        [⟨4, 0, 0, 0, w4, 0, 0⟩, ⟨5, 0, 0, 0, w5, 0, 0⟩, ⟨6, 0, 0, 0, w6, 0, 0⟩,
         ⟨7, 0, 0, 0, w7, 0, 0⟩, ⟨8, 0, 0, 0, w8, 0, 0⟩]).1.length = 8 :=
  ⟨rfl, rfl, rfl⟩

/-- C7: the orchestrator of src/run_all.py evaluated on a first module that
exits non-zero followed by three that would succeed: `all` over the `run`
generator short-circuits, so only 1 of the 4 configured modules is
executed, while the script's own docstring ("Ejecuta todos los generadores
de dashboards en orden") and the claim say all of them run.  The overall
outcome is failing exactly when some executed module exited abnormally
(second and third conjuncts). -/
theorem c7_run_all_eval :
    run_all [false, true, true, true] = (false, 1) ∧
    run_all [true, true, true, true] = (true, 4) ∧
    run_all [true, true, false, true] = (false, 3) := by
  decide

theorem fetch_process_nil_of_le (data : List Obs) (d : ℤ)
    (h : ∀ o ∈ data, o.date ≤ d) : fetch_process data (some d) = [] := by
  unfold fetch_process
  split_ifs with he
  · rfl
  · apply List.filter_eq_nil_iff.mpr
    intro a ha
    have hle : a.date ≤ d := h a ((mem_sortByKey Obs.date).mp ha)
    simp only [decide_eq_true_eq, not_lt]
    exact hle

/-- C3: idempotence of a second synchronizer run with no new remote data,
for both the bonos and the BCRA synchronizer.  With a non-empty local
series, the run returns the series unchanged and performs no write both
when the latest stored date is today-or-later (the fetch is skipped
entirely) and when the fetch produces no new rows — for bonos because every
row of the response is dated at most the stored maximum and is filtered
out, for BCRA because the window-bounded request returns nothing. -/
theorem c3_idempotence (df_local : List Obs) (df_localB : List ObsB) (hoy hoyB : ℤ)
    (remote : List Obs) (remoteB : List ObsB) :
    (df_local ≠ [] →
      (hoy ≤ maxDate df_local ∨ ∀ o ∈ remote, o.date ≤ maxDate df_local) →
      actualizar_ticker df_local hoy remote = (df_local, false)) ∧
    (df_localB ≠ [] →
      (hoyB ≤ maxFecha df_localB ∨ remoteB = []) →
      actualizar_con_api df_localB hoyB remoteB = (df_localB, false)) := by
  constructor
  · intro hne hcase
    have hE : df_local.isEmpty = false := by
      cases df_local with
      | nil => exact absurd rfl hne
      | cons a t => rfl
    by_cases hup : hoy ≤ maxDate df_local
    · simp [actualizar_ticker, hE, hup]
    · rcases hcase with h | h
      · exact absurd h hup
      · have hfp : fetch_process remote (some (maxDate df_local)) = [] :=
          fetch_process_nil_of_le remote (maxDate df_local) h

        simp [actualizar_ticker, hE, hup, hfp]
  · intro hne hcase
    have hE : df_localB.isEmpty = false := by
      cases df_localB with
      | nil => exact absurd rfl hne
      | cons a t => rfl
    by_cases hup : hoyB < maxFecha df_localB + 1
    · simp [actualizar_con_api, hE, hup]
    · rcases hcase with h | h
      · exact absurd (by omega) hup
      · simp [actualizar_con_api, hE, hup, h, get_datos_historicos, sortB, sortByKey]

theorem c3_idempotence_witness :
    actualizar_ticker [⟨3, 0, 0, 0, 10, 0, 0⟩] 3 [⟨9, 0, 0, 0, 11, 0, 0⟩] =
      ([⟨3, 0, 0, 0, 10, 0, 0⟩], false) ∧
    actualizar_con_api [⟨3, 10⟩] 9 [] = ([⟨3, 10⟩], false) :=
  ⟨(c3_idempotence [⟨3, 0, 0, 0, 10, 0, 0⟩] [⟨3, 10⟩] 3 9 [⟨9, 0, 0, 0, 11, 0, 0⟩] []).1
      (by decide) (Or.inl (by decide)),
   (c3_idempotence [⟨3, 0, 0, 0, 10, 0, 0⟩] [⟨3, 10⟩] 3 9 [⟨9, 0, 0, 0, 11, 0, 0⟩] []).2
      (by decide) (Or.inr rfl)⟩

/-- C5: fetcher failure semantics.  When every request attempt fails, the
bonos fetcher makes exactly its 3 attempts with the fixed 1-second backoff
between consecutive attempts (2 sleeps) and returns an empty frame, and the
acciones fetcher likewise makes 3 attempts and returns `None` — absence of
rows either way; both loops catch every exception, so the models are total
functions and nothing propagates to the caller.  For any attempt-outcome
sequence the number of attempts made never exceeds the sequence length (3
at the call sites). -/
theorem c5_fetch_failure (desde : Option ℤ) (attempts : List FetchOutcome) :
    fetch_desde_api FetchOutcome.err FetchOutcome.err FetchOutcome.err desde = ([], 3, 2) ∧
    fetch_ticker FetchOutcome.err FetchOutcome.err FetchOutcome.err = (none, 3) ∧
    (fetch_desde_api_loop desde attempts).2.1 ≤ attempts.length ∧
    (fetch_ticker_loop attempts).2 ≤ attempts.length := by
  refine ⟨rfl, rfl, ?_, ?_⟩
  · induction attempts with
    | nil => simp [fetch_desde_api_loop]
    | cons a rest ih =>
      cases a with
      | ok rows => simp [fetch_desde_api_loop]
      | err =>
        simp only [fetch_desde_api_loop, List.length_cons]
        omega
  · induction attempts with
    | nil => simp [fetch_ticker_loop]
    | cons a rest ih =>
      cases a with
      | ok rows => simp [fetch_ticker_loop]
      | err =>
        simp only [fetch_ticker_loop, List.length_cons]
        omega

/-- C6: monotonic growth.  For every input state, every date present in the
local series before a synchronizer run is still present in the series the
run returns (and persists, when it writes): the old rows sit in front of
the concatenation and deduplication only ever removes later repeats of a
date already kept. -/
theorem c6_monotonic_growth (df_local : List Obs) (df_localB : List ObsB)
    (hoy hoyB : ℤ) (remote : List Obs) (remoteB : List ObsB) :
    df_local.map Obs.date ⊆ (actualizar_ticker df_local hoy remote).1.map Obs.date ∧
    df_localB.map ObsB.fecha ⊆
      (actualizar_con_api df_localB hoyB remoteB).1.map ObsB.fecha := by
  constructor
  · rcases actualizar_ticker_cases df_local hoy remote with h | ⟨he, h⟩ | ⟨_, h⟩ <;> rw [h]
    · exact fun a ha => ha
    · rw [List.isEmpty_iff.mp he]
      simp
    · intro k hk
      have h1 : k ∈ (df_local ++
          fetch_process remote (some (maxDate df_local))).map Obs.date := by
        rw [List.map_append]
        exact List.mem_append_left _ hk
      have h2 : k ∈ (drop_duplicates (df_local ++
          fetch_process remote (some (maxDate df_local)))).map Obs.date :=
        (mem_map_key_dropDupBy Obs.date [] _ k).mpr ⟨h1, by simp⟩
      exact (((sortByKey_perm Obs.date _).map Obs.date).mem_iff).mpr h2
  · rcases actualizar_con_api_cases df_localB hoyB remoteB with h | h <;> rw [h]
    · exact fun a ha => ha
    · intro k hk
      have h1 : k ∈ (df_localB ++ get_datos_historicos remoteB).map ObsB.fecha := by
        rw [List.map_append]
        exact List.mem_append_left _ hk
      have h2 : k ∈ (drop_duplicatesB
          (df_localB ++ get_datos_historicos remoteB)).map ObsB.fecha :=
        (mem_map_key_dropDupBy ObsB.fecha [] _ k).mpr ⟨h1, by simp⟩
      exact (((sortByKey_perm ObsB.fecha _).map ObsB.fecha).mem_iff).mpr h2

/-- C8 counterexample: ten instruments, each with daily return +0.1%.  Then
declines = 0 and advances = 10, the ratio is infinite — but the mean return
is 0.1 < 0.5, so the classification falls through the broad-bullish branch
(`ad_ratio >= 2.0 and avg_change >= 0.5`) to the moderate-bullish one,
refuting the claim that the sentiment always resolves via the broad-bullish
branch in this scenario. -/
theorem c8_counterexample :
    declines [1/10, 1/10, 1/10, 1/10, 1/10, 1/10, 1/10, 1/10, 1/10, (1 : ℚ)/10] = 0 ∧
    advances [1/10, 1/10, 1/10, 1/10, 1/10, 1/10, 1/10, 1/10, 1/10, (1 : ℚ)/10] = 10 ∧
    ad_ratio [1/10, 1/10, 1/10, 1/10, 1/10, 1/10, 1/10, 1/10, 1/10, (1 : ℚ)/10] =
      AdVal.infinite ∧
    market_sentiment [1/10, 1/10, 1/10, 1/10, 1/10, 1/10, 1/10, 1/10, 1/10, (1 : ℚ)/10] =
      "Alcista moderado" := by
  have hdec : declines [1/10, 1/10, 1/10, 1/10, 1/10, 1/10, 1/10, 1/10, 1/10, (1 : ℚ)/10]
      = 0 := by
    norm_num [declines, List.filter]
  have hadv : advances [1/10, 1/10, 1/10, 1/10, 1/10, 1/10, 1/10, 1/10, 1/10, (1 : ℚ)/10]
      = 10 := by
    norm_num [advances, List.filter]
  have havg : avg_change [1/10, 1/10, 1/10, 1/10, 1/10, 1/10, 1/10, 1/10, 1/10, (1 : ℚ)/10]
      = 1/10 := by
    norm_num [avg_change, listMean]
  have hr : ad_ratio [1/10, 1/10, 1/10, 1/10, 1/10, 1/10, 1/10, 1/10, 1/10, (1 : ℚ)/10] =
      AdVal.infinite := by
    rw [ad_ratio, hdec]
    norm_num
  have h1 : (AdVal.ge
      (ad_ratio [1/10, 1/10, 1/10, 1/10, 1/10, 1/10, 1/10, 1/10, 1/10, (1 : ℚ)/10]) 2 &&
      decide ((1 : ℚ)/2 ≤
        avg_change [1/10, 1/10, 1/10, 1/10, 1/10, 1/10, 1/10, 1/10, 1/10, (1 : ℚ)/10])) =
      false := by
    rw [hr, havg]
    simp only [AdVal.ge, Bool.true_and, decide_eq_false_iff_not, not_le]
    norm_num
  have h2 : (AdVal.ge
      (ad_ratio [1/10, 1/10, 1/10, 1/10, 1/10, 1/10, 1/10, 1/10, 1/10, (1 : ℚ)/10]) (6/5) &&
      decide ((0 : ℚ) ≤
        avg_change [1/10, 1/10, 1/10, 1/10, 1/10, 1/10, 1/10, 1/10, 1/10, (1 : ℚ)/10])) =
      true := by
    rw [hr, havg]
    simp only [AdVal.ge, Bool.true_and, decide_eq_true_eq]
    norm_num
  refine ⟨hdec, hadv, hr, ?_⟩
  simp only [market_sentiment, h1, h2]
  simp

/-- C8 amended: with declines = 0 (and advances = 10) the advance/decline
ratio is the infinity value and no division is evaluated; the sentiment
resolves via the broad-bullish branch exactly when additionally the mean
return is at least 0.5 (the broad-bullish condition also tests
`avg_change >= 0.5`, which `declines = 0` does not imply). -/
theorem c8_zero_declines (rets : List ℚ) (h0 : declines rets = 0)
    (h10 : advances rets = 10) :
    ad_ratio rets = AdVal.infinite ∧
    ((1 : ℚ)/2 ≤ avg_change rets → market_sentiment rets = "Alcista amplio") := by
  have hr : ad_ratio rets = AdVal.infinite := by simp [ad_ratio, h0]
  refine ⟨hr, fun havg => ?_⟩
  have hcond : (AdVal.ge (ad_ratio rets) 2 && decide ((1 : ℚ)/2 ≤ avg_change rets)) =
      true := by
    rw [hr]
    simp only [AdVal.ge, Bool.true_and, decide_eq_true_eq]
    exact havg
  simp only [market_sentiment, hcond]
  simp

theorem c8_zero_declines_witness :
    ad_ratio [1, 1, 1, 1, 1, 1, 1, 1, 1, (1 : ℚ)] = AdVal.infinite ∧
    market_sentiment [1, 1, 1, 1, 1, 1, 1, 1, 1, (1 : ℚ)] = "Alcista amplio" := by
  have h := c8_zero_declines [1, 1, 1, 1, 1, 1, 1, 1, 1, (1 : ℚ)]
    (by norm_num [declines, List.filter]) (by norm_num [advances, List.filter])
  exact ⟨h.1, h.2 (by norm_num [avg_change, listMean])⟩

theorem metricRow_two_daily_ret (tk : String) (a b : Obs) (hab : a.date ≤ b.date) :
    (metricRow tk [a, b]).daily_ret = fround2 (daily_ret_val a.close b.close) := by
  simp [metricRow, sort_values, sortByKey, List.insertionSort, List.orderedInsert,
    hab, lastTwo]

/-- C9 counterexample: an instrument with 2 observations whose latest two
closes are both 0.  The float division `0.0/0.0` yields NaN, `round(nan,
2)` keeps it, and `dropna(subset=['daily_ret'])` silently drops the row —
the metrics output contains no snapshot for this 2-observation instrument,
refuting "a snapshot exactly for instruments with at least 2
Observations". -/
theorem c9_counterexample :
    ([⟨1, 0, 0, 0, 0, 0, 0⟩, ⟨2, 0, 0, 0, 0, 0, 0⟩] : List Obs).length = 2 ∧
    calcular_metricas [("Z", [⟨1, 0, 0, 0, 0, 0, 0⟩, ⟨2, 0, 0, 0, 0, 0, 0⟩])] = [] := by
  decide

/-- C9 amended: the metrics calculator produces one snapshot exactly for
the instruments with at least 2 observations whose daily return is
well-defined (not the float NaN arising from both latest closes being 0):
every such instrument contributes its row, and every output row comes from
an instrument with 2 or more rows and a non-NaN daily return — so an
instrument with exactly 1 observation is excluded from the output and from
the aggregates computed over it, unchanged from the original claim.  For a
two-observation series the daily return is NaN exactly when both closes
are 0; with a non-zero previous close it is the finite value
`(last_close / previous_close - 1) * 100` (rounded to 2 decimals, as the
code stores it), and the closes 100 then 105 yield exactly 5.0. -/
theorem c9_metrics_postcondition_amended :
    (∀ (frames : List (String × List Obs)) (p : String × List Obs), p ∈ frames →
      2 ≤ p.2.length → (metricRow p.1 p.2).daily_ret ≠ FloatVal.nan →
      metricRow p.1 p.2 ∈ calcular_metricas frames) ∧
    (∀ (frames : List (String × List Obs)) (r : MetricRow),
      r ∈ calcular_metricas frames →
      ∃ p ∈ frames, 2 ≤ p.2.length ∧ r = metricRow p.1 p.2 ∧
        r.daily_ret ≠ FloatVal.nan) ∧
    (∀ (tk : String) (a b : Obs), a.date ≤ b.date →
      ((metricRow tk [a, b]).daily_ret = FloatVal.nan ↔ a.close = 0 ∧ b.close = 0)) ∧
    (∀ (tk : String) (a b : Obs), a.date ≤ b.date → a.close ≠ 0 →
      (metricRow tk [a, b]).daily_ret =
        FloatVal.finite (round2 ((b.close / a.close - 1) * 100))) ∧
    (calcular_metricas [("X", [⟨1, 0, 0, 0, 100, 0, 0⟩, ⟨2, 0, 0, 0, 105, 0, 0⟩])]).map
      MetricRow.daily_ret = [FloatVal.finite 5] := by
  refine ⟨?_, ?_, ?_, ?_, ?_⟩
  · intro frames p hp hlen hnan
    apply List.mem_filter.mpr
    refine ⟨?_, decide_eq_true hnan⟩
    apply List.mem_filterMap.mpr
    exact ⟨p, hp, by rw [if_neg (by omega)]⟩
  · intro frames r hr
    obtain ⟨hmem, hpred⟩ := List.mem_filter.mp hr
    obtain ⟨p, hp, heq⟩ := List.mem_filterMap.mp hmem
    by_cases hlen : p.2.length < 2
    · rw [if_pos hlen] at heq
      exact absurd heq (by simp)
    · rw [if_neg hlen] at heq
      exact ⟨p, hp, by omega, (Option.some.inj heq).symm, of_decide_eq_true hpred⟩
  · intro tk a b hab
    rw [metricRow_two_daily_ret tk a b hab]
    by_cases ha : a.close = 0
    · by_cases hb : b.close = 0
      · simp [daily_ret_val, fdiv, ha, hb, fround2]
      · by_cases hpos : 0 < b.close <;>
          simp [daily_ret_val, fdiv, ha, hb, hpos, fround2]
    · simp [daily_ret_val, fdiv, ha, fround2]
  · intro tk a b hab ha0
    rw [metricRow_two_daily_ret tk a b hab]
    simp [daily_ret_val, fdiv, ha0, fround2]
  · have hstep :
        (calcular_metricas [("X", [⟨1, 0, 0, 0, 100, 0, 0⟩, ⟨2, 0, 0, 0, 105, 0, 0⟩])]).map
          MetricRow.daily_ret = [FloatVal.finite (round2 (((105 : ℚ)/100 - 1) * 100))] :=
      rfl
    rw [hstep]
    have hval : round2 (((105 : ℚ)/100 - 1) * 100) = 5 := by norm_num [round2]
    rw [hval]

theorem c9_metrics_postcondition_amended_witness :
    metricRow "X" [⟨1, 0, 0, 0, 100, 0, 0⟩, ⟨2, 0, 0, 0, 105, 0, 0⟩] ∈
      calcular_metricas [("X", [⟨1, 0, 0, 0, 100, 0, 0⟩, ⟨2, 0, 0, 0, 105, 0, 0⟩])] :=
  c9_metrics_postcondition_amended.1
    [("X", [⟨1, 0, 0, 0, 100, 0, 0⟩, ⟨2, 0, 0, 0, 105, 0, 0⟩])]
    ("X", [⟨1, 0, 0, 0, 100, 0, 0⟩, ⟨2, 0, 0, 0, 105, 0, 0⟩]) (by simp) (by decide)
    (by decide)

theorem val_atras_eq_none (dias : ℤ) (df : List ObsB)
    (h : ∀ o ∈ df, ultima_fecha df - dias < o.fecha) : val_atras dias df = none := by
  unfold val_atras
  have hfil : ((sortB df).filter fun o => decide (o.fecha ≤ ultima_fecha df - dias)) = [] := by
    apply List.filter_eq_nil_iff.mpr
    intro a ha
    have := h a ((mem_sortByKey ObsB.fecha).mp ha)
    simp only [decide_eq_true_eq, not_le]
    omega
  rw [hfil]
  rfl

theorem df_a_dict_var_fields (df : List ObsB) (d : VarDict)
    (h : df_a_dict df = some d) :
    d.var_30d = variacion 30 d.ultimo df ∧ d.var_1a = variacion 365 d.ultimo df := by
  unfold df_a_dict at h
  by_cases hE : df.isEmpty
  · rw [if_pos hE] at h
    exact absurd h (by simp)
  · rw [if_neg hE] at h
    obtain rfl := Option.some.inj h
    exact ⟨rfl, rfl⟩

/-- C10: guarded variation fields of the BCRA export.  Whenever `df_a_dict`
produces a record, each variation field (30-day and 1-year) is `None` both
when no observation is dated at or before the respective cutoff and when
the baseline value at the cutoff is zero; conversely a present variation
certifies a non-zero baseline, i.e. the division `(ultimo - val) /
abs(val)` is only ever evaluated with a non-zero denominator, so no
division-by-zero can be raised. -/
theorem c10_guarded_variations (df : List ObsB) (d : VarDict)
    (h : df_a_dict df = some d) :
    ((∀ o ∈ df, ultima_fecha df - 30 < o.fecha) → d.var_30d = none) ∧
    (val_atras 30 df = some 0 → d.var_30d = none) ∧
    (∀ q, d.var_30d = some q → ∃ v, val_atras 30 df = some v ∧ v ≠ 0 ∧
      q = round2 ((d.ultimo - v) / |v| * 100)) ∧
    ((∀ o ∈ df, ultima_fecha df - 365 < o.fecha) → d.var_1a = none) ∧
    (val_atras 365 df = some 0 → d.var_1a = none) ∧
    (∀ q, d.var_1a = some q → ∃ v, val_atras 365 df = some v ∧ v ≠ 0 ∧
      q = round2 ((d.ultimo - v) / |v| * 100)) := by
  obtain ⟨h30, h1a⟩ := df_a_dict_var_fields df d h
  refine ⟨?_, ?_, ?_, ?_, ?_, ?_⟩
  · intro hno
    rw [h30, variacion, val_atras_eq_none 30 df hno]
  · intro hz
    rw [h30, variacion, hz]
    simp
  · intro q hq
    rw [h30, variacion] at hq
    cases hv : val_atras 30 df with
    | none =>
      rw [hv] at hq
      exact absurd hq (by simp)
    | some v =>
      rw [hv] at hq
      dsimp only at hq
      by_cases hz : v = 0
      · rw [if_pos hz] at hq
        exact absurd hq (by simp)
      · rw [if_neg hz] at hq
        exact ⟨v, rfl, hz, (Option.some.inj hq).symm⟩
  · intro hno
    rw [h1a, variacion, val_atras_eq_none 365 df hno]
  · intro hz
    rw [h1a, variacion, hz]
    simp
  · intro q hq
    rw [h1a, variacion] at hq
    cases hv : val_atras 365 df with
    | none =>
      rw [hv] at hq
      exact absurd hq (by simp)
    | some v =>
      rw [hv] at hq
      dsimp only at hq
      by_cases hz : v = 0
      · rw [if_pos hz] at hq
        exact absurd hq (by simp)
      · rw [if_neg hz] at hq
        exact ⟨v, rfl, hz, (Option.some.inj hq).symm⟩

theorem c10_guarded_variations_witness :
    ∃ d, df_a_dict [⟨0, 5⟩] = some d ∧ d.var_30d = none ∧ d.var_1a = none := by
  obtain ⟨d, hd⟩ : ∃ d, df_a_dict [⟨0, 5⟩] = some d := ⟨_, rfl⟩
  have h := c10_guarded_variations [⟨0, 5⟩] d hd
  exact ⟨d, hd, h.1 (by decide), h.2.2.2.1 (by decide)⟩
